import Mathlib

set_option autoImplicit false

/-!
Shallow embedding of the identity and worker layer of this repository:
src/src/syft/core/common/uid.py and src/src/syft/core/worker/worker.py.
Python integers are Nat, byte strings are lists of Fin 256, raised
exceptions are the error side of Except, and a Python method that can fall
through and return None is modelled with Option.
-/

namespace Syft

/-- A wire byte: an integer in the interval from 0 to 255. -/
abbrev Byte := Fin 256

/-- Big-endian rendering of a natural number into exactly n bytes, the
most significant byte first, mirroring the Python property uuid.UUID.bytes
which yields the 16-byte big-endian form of the 128-bit integer. -/
def natToBytesBE : Nat → Nat → List Byte
  | 0, _ => []
  | n + 1, v => natToBytesBE n (v / 256) ++ [⟨v % 256, by omega⟩]

/-- Big-endian byte decoding, mirroring how uuid.UUID(bytes=b) reads 16
bytes into the 128-bit integer of the uuid. -/
def bytesToNatBE (bs : List Byte) : Nat :=
  bs.foldl (fun acc b => acc * 256 + b.val) 0

theorem length_natToBytesBE (n v : Nat) : (natToBytesBE n v).length = n := by
  induction n generalizing v with
  | zero => rfl
  | succ n ih => simp [natToBytesBE, ih]

theorem bytesToNatBE_append (xs : List Byte) (b : Byte) :
    bytesToNatBE (xs ++ [b]) = bytesToNatBE xs * 256 + b.val := by
  simp [bytesToNatBE, List.foldl_append]

theorem pow_256_16 : (256 : Nat) ^ 16 = 2 ^ 128 := by norm_num

theorem bytesToNatBE_natToBytesBE (n v : Nat) (h : v < 256 ^ n) :
    bytesToNatBE (natToBytesBE n v) = v := by
  induction n generalizing v with
  | zero =>
    simp [natToBytesBE, bytesToNatBE]
    omega
  | succ n ih =>
    have hdiv : v / 256 < 256 ^ n := by
      rw [pow_succ, mul_comm] at h
      exact Nat.div_lt_of_lt_mul h
    simp only [natToBytesBE]
    rw [bytesToNatBE_append, ih _ hdiv]
    show v / 256 * 256 + v % 256 = v
    omega

theorem foldl_byte_lt (bs : List Byte) (acc : Nat) :
    bs.foldl (fun a b => a * 256 + b.val) acc < (acc + 1) * 256 ^ bs.length := by
  induction bs generalizing acc with
  | nil => simp
  | cons b bs ih =>
    simp only [List.foldl_cons, List.length_cons]
    calc bs.foldl (fun a b => a * 256 + b.val) (acc * 256 + b.val)
        < (acc * 256 + b.val + 1) * 256 ^ bs.length := ih _
      _ ≤ ((acc + 1) * 256) * 256 ^ bs.length := by
          refine Nat.mul_le_mul_right _ ?_
          have hb := b.isLt
          omega
      _ = (acc + 1) * 256 ^ (bs.length + 1) := by rw [pow_succ]; ring

theorem bytesToNatBE_lt (bs : List Byte) : bytesToNatBE bs < 256 ^ bs.length := by
  have h := foldl_byte_lt bs 0
  simpa [bytesToNatBE] using h

/-- The value held by a Python uuid.UUID object as used by uid.py: an
immutable 128-bit integer. The field int mirrors the .int property and the
bound is the class invariant of uuid.UUID. Equality of uuid objects is
equality of their integers. -/
structure Uuid where
  int : Nat
  isLt : int < 2 ^ 128

theorem Uuid.eq_of_int_eq {a b : Uuid} (h : a.int = b.int) : a = b := by
  cases a
  cases b
  simp_all

/-- The .bytes property of a uuid: the 16-byte big-endian form. -/
def Uuid.bytes (u : Uuid) : List Byte := natToBytesBE 16 u.int

/-- The failure of identifier deserialization. The code path is the
ValueError raised by uuid.UUID(bytes=b) when b is not exactly 16 bytes;
the spec names this condition InvalidIdentifierBytes. -/
inductive UIDError where
  | invalidIdentifierBytes
deriving DecidableEq

/-- Python uuid.UUID(bytes=b): accepts exactly 16 bytes and yields the uuid
whose 128-bit integer is their big-endian decoding; any other length raises
the malformed-bytes failure. -/
def uuidFromBytes (b : List Byte) : Except UIDError Uuid :=
  if h : b.length = 16 then
    .ok { int := bytesToNatBE b
          isLt := by
            have hlt := bytesToNatBE_lt b
            rw [h, pow_256_16] at hlt
            exact hlt }
  else
    .error .invalidIdentifierBytes

theorem uuidFromBytes_eq_ok (b : List Byte) (u : Uuid) (hlen : b.length = 16)
    (hval : bytesToNatBE b = u.int) : uuidFromBytes b = .ok u := by
  unfold uuidFromBytes
  split
  · exact congrArg Except.ok (Uuid.eq_of_int_eq hval)
  · next h => exact absurd hlen h

theorem uuidFromBytes_bytes (u : Uuid) : uuidFromBytes u.bytes = .ok u :=
  uuidFromBytes_eq_ok (Uuid.bytes u) u (length_natToBytesBE 16 u.int)
    (bytesToNatBE_natToBytesBE 16 u.int (by rw [pow_256_16]; exact u.isLt))

/-- UID from uid.py: it stores the uuid in .value, and the as_wrapper flag
handed to the Serializable superclass (the superclass is outside the
visible source; that it stores the flag is witnessed by _object2proto
reading self.as_wrapper back). UID(value=v) leaves as_wrapper at its
default False. -/
structure UID where
  value : Uuid
  as_wrapper : Bool

/-- A Python value that a UID may be compared against: a UID instance, or a
non-UID value such as an integer or a string. -/
inductive PyVal where
  | uid (u : UID)
  | int (n : Int)
  | str (s : String)

/-- UID.eq models the method at uid.py lines 100 to 112: when the other
operand is a UID instance it returns the boolean comparison of the two uuid
values (uuid equality compares the 128-bit integers); for any other operand
the body falls through and Python returns None, modelled as none. -/
def UID.eq (self : UID) (other : PyVal) : Option Bool :=
  match other with
  | .uid o => some (self.value.int == o.value.int)
  | _ => none

/-- The method at uid.py lines 82 to 98: the hash is the 128-bit integer
form of the value. -/
def UID.hash (self : UID) : Nat := self.value.int

/-- The ProtoUID message as filled in by _object2proto: the dotted type
name, the 16 value bytes, and the as_wrapper flag. -/
structure ProtoUID where
  obj_type : String
  value : List Byte
  as_wrapper : Bool

/-- The method at uid.py lines 122 to 138: serialize the uuid value as its
16 bytes together with the wrapper flag. -/
def UID._object2proto (self : UID) : ProtoUID :=
  { obj_type := "syft.core.common.uid.UID"
    value := self.value.bytes
    as_wrapper := self.as_wrapper }

/-- What _proto2object hands back: the raw uuid value when the wrapper flag
was set, a UID object otherwise. -/
inductive DeserializedUID where
  | rawValue (v : Uuid)
  | uidObject (u : UID)

/-- The static method at uid.py lines 140 to 152: rebuild the uuid from the
proto bytes (raising on malformed bytes), then return the raw uuid when
proto.as_wrapper is set and UID(value=value) otherwise. -/
def UID._proto2object (proto : ProtoUID) : Except UIDError DeserializedUID :=
  match uuidFromBytes proto.value with
  | .error e => .error e
  | .ok value =>
    if proto.as_wrapper then .ok (.rawValue value)
    else .ok (.uidObject { value := value, as_wrapper := false })

/-- A fixed concrete 128-bit identifier used by concrete evaluations. -/
def u42 : Uuid := ⟨42, by norm_num⟩

/-- Modelled from the spec: a node of a framework call graph. The ast
module is outside the visible source and the dispatch layer never inspects
a node, so a node is carried as an integer tag. -/
abbrev AstNode := Nat

/-- Modelled from the spec: Globals (the ast.globals module is outside the
visible source), the container whose attrs field maps attribute names to
call-graph nodes; kept as the list of entries in registration order.
Globals() constructs it empty. -/
structure Globals where
  attrs : List (String × AstNode)

/-- Modelled from the spec: a framework collaborator exposes an ast whose
attrs map attribute names to call-graph nodes. -/
structure Framework where
  ast : Globals

/-- Modelled from the spec: an object owned by the store; this layer never
inspects it, so an integer payload suffices. -/
abbrev StoredObject := Int

/-- Modelled from the spec: ObjectStore (the store module is outside the
visible source), the keyed table from UID value to owned object, created
empty when a Worker is constructed. -/
structure ObjectStore where
  objects : List (Uuid × StoredObject)

/-- Modelled from the spec: the closed set of message variants named by the
imports of worker.py (the message module itself is outside the visible
source). -/
inductive SyftMessage where
  | saveObject (uid : Uuid) (object : StoredObject)
  | getObject (uid : Uuid)
  | deleteObject (uid : Uuid)
  | runClassMethod (uid : Uuid) (method_name : String) (args : List StoredObject)
  | runFunctionOrConstructor (path : String) (args : List StoredObject)

/-- The message kinds, the keys of the router table. -/
inductive MsgKind where
  | saveObject
  | getObject
  | deleteObject
  | runClassMethod
  | runFunctionOrConstructor

/-- Modelled from the spec: the response a dispatched handler would
produce (Ack, a payload object, or the recoverable NotFound). -/
inductive Response where
  | ack
  | obj (o : StoredObject)
  | notFound

/-- Modelled from the spec: message_service_mapping (worker/service.py is
outside the visible source), the static process-wide router table; the
visible worker.py only binds it to self.msg_router and never consults it,
so it is kept as the list of message kinds it serves. -/
def message_service_mapping : List MsgKind :=
  [.saveObject, .getObject, .deleteObject, .runClassMethod, .runFunctionOrConstructor]

/-- Modelled from the spec: WorkerStats (worker/supervisor/stats.py is
outside the visible source), the observation collector attached in debug
mode; its aggregation is out of scope, so it is a bare token. -/
inductive WorkerStats where
  | mkStats

/-- The Worker state assembled by Worker.__init__ at worker.py lines 42 to
58: the string id, the fresh object store, the registered frameworks, the
bound router and the optional statistics collector. -/
structure Worker where
  id : String
  store : ObjectStore
  frameworks : Globals
  msg_router : List MsgKind
  worker_stats : Option WorkerStats

/-- The construction failure of Worker.__init__: the KeyError raised at
worker.py lines 50 to 52 on a duplicate framework attribute name, which
the spec taxonomy names DuplicateFrameworkError. -/
inductive WorkerError where
  | duplicateFramework

/-- The inner loop of Worker.__init__ (worker.py lines 48 to 53): walk the
attrs of one framework, raising when a name is already registered and
appending the entry otherwise. -/
def registerAttrs : List (String × AstNode) → List (String × AstNode) →
    Except WorkerError (List (String × AstNode))
  | acc, [] => .ok acc
  | acc, (name, ast) :: rest =>
    if name ∈ acc.map Prod.fst then .error .duplicateFramework
    else registerAttrs (acc ++ [(name, ast)]) rest

/-- The outer loop of Worker.__init__ (worker.py line 47): register each
supported framework in turn into the accumulated frameworks.attrs. -/
def registerFrameworks : List (String × AstNode) → List Framework →
    Except WorkerError (List (String × AstNode))
  | acc, [] => .ok acc
  | acc, fw :: rest =>
    match registerAttrs acc fw.ast.attrs with
    | .error e => .error e
    | .ok acc2 => registerFrameworks acc2 rest

/-- Worker.__init__ from worker.py lines 42 to 58: set the id, create an
empty store and empty frameworks, register the supported frameworks
(raising on a duplicate name), bind the router, and attach a statistics
collector exactly when debug is set. -/
def Worker.init (id : String) (debug : Bool) (supported_frameworks : List Framework) :
    Except WorkerError Worker :=
  match registerFrameworks [] supported_frameworks with
  | .error e => .error e
  | .ok attrs =>
    .ok { id := id
          store := ⟨[]⟩
          frameworks := ⟨attrs⟩
          msg_router := message_service_mapping
          worker_stats := if debug then some .mkStats else none }

/-- Worker.recv_msg from worker.py lines 61 to 63: the body is the single
statement pass, so the call mutates nothing and returns None (no
payload). -/
def Worker.recv_msg (self : Worker) (msg : SyftMessage) : Worker × Option Response :=
  (self, none)

/-- The failure raised by the abstract transport methods of worker.py
(NotImplementedError), which the spec taxonomy names
NotImplementedTransport. -/
inductive TransportError where
  | notImplemented

/-- Worker._send_msg from worker.py lines 65 to 67: unconditionally raises
NotImplementedError. -/
def Worker._send_msg (self : Worker) : Except TransportError Unit :=
  .error .notImplemented

/-- Worker._recv_msg from worker.py lines 69 to 71: unconditionally raises
NotImplementedError. -/
def Worker._recv_msg (self : Worker) : Except TransportError Unit :=
  .error .notImplemented

/-- The worker produced by Worker.init with id node-a, debug off and no
frameworks. -/
def workerNodeA : Worker :=
  { id := "node-a"
    store := ⟨[]⟩
    frameworks := ⟨[]⟩
    msg_router := message_service_mapping
    worker_stats := none }

theorem registerAttrs_ok_mem {acc acc2 : List (String × AstNode)}
    {attrs : List (String × AstNode)} {n : String}
    (h : registerAttrs acc attrs = .ok acc2)
    (hn : n ∈ acc.map Prod.fst ∨ n ∈ attrs.map Prod.fst) :
    n ∈ acc2.map Prod.fst := by
  induction attrs generalizing acc with
  | nil =>
    simp only [registerAttrs, Except.ok.injEq] at h
    subst h
    simpa using hn
  | cons entry rest ih =>
    obtain ⟨m, a⟩ := entry
    by_cases hm : m ∈ acc.map Prod.fst
    · simp [registerAttrs, hm] at h
    · simp only [registerAttrs, if_neg hm] at h
      refine ih h ?_
      rcases hn with hacc | hhead
      · exact Or.inl (by simp [hacc])
      · rcases (by simpa using hhead : n = m ∨ n ∈ rest.map Prod.fst) with rfl | hrest
        · exact Or.inl (by simp)
        · exact Or.inr hrest

theorem registerAttrs_dup_error {acc : List (String × AstNode)}
    {attrs : List (String × AstNode)} {n : String}
    (ha : n ∈ acc.map Prod.fst) (hb : n ∈ attrs.map Prod.fst) :
    registerAttrs acc attrs = .error .duplicateFramework := by
  induction attrs generalizing acc with
  | nil => simp at hb
  | cons entry rest ih =>
    obtain ⟨m, a⟩ := entry
    by_cases hm : m ∈ acc.map Prod.fst
    · simp [registerAttrs, hm]
    · rcases (by simpa using hb : n = m ∨ n ∈ rest.map Prod.fst) with rfl | hrest
      · exact absurd ha hm
      · simp only [registerAttrs, if_neg hm]
        exact ih (by simp [ha]) hrest

/-- C4: constructing a Worker with two frameworks that register the same
attribute name fails at construction time with the duplicate-framework
error (the KeyError of worker.py, named DuplicateFrameworkError by the
spec), so no Worker value is produced: nothing is merged or overwritten. -/
theorem worker_init_duplicate_framework (id : String) (debug : Bool)
    (fw1 fw2 : Framework) (n : String)
    (h1 : n ∈ fw1.ast.attrs.map Prod.fst) (h2 : n ∈ fw2.ast.attrs.map Prod.fst) :
    Worker.init id debug [fw1, fw2] = .error .duplicateFramework := by
  have hreg : registerFrameworks [] [fw1, fw2] = .error .duplicateFramework := by
    simp only [registerFrameworks]
    cases hA : registerAttrs [] fw1.ast.attrs with
    | error e => cases e; rfl
    | ok acc1 =>
      have hmem : n ∈ acc1.map Prod.fst := registerAttrs_ok_mem hA (Or.inr h1)
      simp [registerAttrs_dup_error hmem h2, registerFrameworks]
  simp [Worker.init, hreg]

/-- C4 witness: two concrete frameworks that both register the name torch
make construction fail. -/
theorem worker_init_duplicate_framework_witness :
    "torch" ∈ (Framework.mk ⟨[("torch", 0)]⟩).ast.attrs.map Prod.fst ∧
    "torch" ∈ (Framework.mk ⟨[("torch", 1)]⟩).ast.attrs.map Prod.fst ∧
    Worker.init "node-a" false
      [Framework.mk ⟨[("torch", 0)]⟩, Framework.mk ⟨[("torch", 1)]⟩] =
      .error .duplicateFramework :=
  ⟨by simp, by simp,
    worker_init_duplicate_framework "node-a" false
      (Framework.mk ⟨[("torch", 0)]⟩) (Framework.mk ⟨[("torch", 1)]⟩)
      "torch" (by simp) (by simp)⟩

/-- C1: the code contradicts the scenario of the spec. Worker.__init__ with
id node-a, no frameworks and debug off succeeds, but recv_msg has the body
pass, so every call of the scenario returns None and leaves the worker
untouched instead of returning Ack, then 42, then Ack, then NotFound. -/
theorem recv_msg_scenario_is_noop :
    Worker.init "node-a" false [] = .ok workerNodeA ∧
    workerNodeA.recv_msg (.saveObject u42 42) = (workerNodeA, none) ∧
    workerNodeA.recv_msg (.getObject u42) = (workerNodeA, none) ∧
    workerNodeA.recv_msg (.deleteObject u42) = (workerNodeA, none) ∧
    workerNodeA.recv_msg (.getObject u42) = (workerNodeA, none) :=
  ⟨rfl, rfl, rfl, rfl, rfl⟩

/-- C9: for every worker state and every message, recv_msg leaves the
worker entirely unchanged in every field and returns no payload. -/
theorem recv_msg_frame (w : Worker) (msg : SyftMessage) :
    (w.recv_msg msg).1.id = w.id ∧
    (w.recv_msg msg).1.store = w.store ∧
    (w.recv_msg msg).1.frameworks = w.frameworks ∧
    (w.recv_msg msg).1.msg_router = w.msg_router ∧
    (w.recv_msg msg).1.worker_stats = w.worker_stats ∧
    (w.recv_msg msg).2 = none :=
  ⟨rfl, rfl, rfl, rfl, rfl, rfl⟩

/-- C8: the abstract transport methods of the base Worker fail with the
NotImplemented programming-error signal for every Worker instance,
whatever its construction arguments were. -/
theorem worker_transport_not_implemented (w : Worker) :
    w._send_msg = .error .notImplemented ∧ w._recv_msg = .error .notImplemented :=
  ⟨rfl, rfl⟩

/-- C2: for every UID with as_wrapper false, deserializing the serialized
form yields a UID equal to the original bit for bit (value and flag). -/
theorem uid_serialize_roundtrip (u : UID) (h : u.as_wrapper = false) :
    UID._proto2object (UID._object2proto u) = .ok (.uidObject u) := by
  obtain ⟨value, aw⟩ := u
  cases aw with
  | false => simp [UID._object2proto, UID._proto2object, uuidFromBytes_bytes]
  | true => simp at h

/-- C2 witness: the round trip at the concrete identifier 42. -/
theorem uid_serialize_roundtrip_witness :
    (UID.mk u42 false).as_wrapper = false ∧
    UID._proto2object (UID._object2proto (UID.mk u42 false)) =
      .ok (.uidObject (UID.mk u42 false)) :=
  ⟨rfl, uid_serialize_roundtrip (UID.mk u42 false) rfl⟩

/-- C5: deserialization branches on the as_wrapper flag recorded at
serialization time: a wrapper serialization comes back as the raw uuid
value, a non-wrapper serialization comes back as a domain UID object. -/
theorem proto2object_wrapper_branch (u : UID) :
    UID._proto2object (UID._object2proto u) =
      (if u.as_wrapper then .ok (.rawValue u.value)
       else .ok (.uidObject (UID.mk u.value false))) := by
  obtain ⟨value, aw⟩ := u
  cases aw <;> simp [UID._object2proto, UID._proto2object, uuidFromBytes_bytes]

/-- C7: deserializing an identifier whose byte string is not exactly 16
bytes fails with the malformed-bytes error and never yields a UID. -/
theorem proto2object_invalid_bytes (proto : ProtoUID)
    (h : proto.value.length ≠ 16) :
    UID._proto2object proto = .error .invalidIdentifierBytes := by
  simp [UID._proto2object, uuidFromBytes, h]

/-- C7 witness: the empty byte string is rejected. -/
theorem proto2object_invalid_bytes_witness :
    (ProtoUID.mk "syft.core.common.uid.UID" [] false).value.length ≠ 16 ∧
    UID._proto2object (ProtoUID.mk "syft.core.common.uid.UID" [] false) =
      .error .invalidIdentifierBytes :=
  ⟨by simp, proto2object_invalid_bytes (ProtoUID.mk "syft.core.common.uid.UID" [] false) (by simp)⟩

/-- C3: evaluating UID.__eq__ of a concrete UID against the non-UID value
5 returns None (the body falls through), not False as the claim states. -/
theorem uid_eq_non_uid_returns_none :
    (UID.mk u42 false).eq (.int 5) = none := rfl

/-- C6: if two UIDs compare equal then their hashes agree, since the hash
is the 128-bit integer of the compared value. -/
theorem uid_eq_implies_hash_eq (a b : UID) (h : a.eq (.uid b) = some true) :
    a.hash = b.hash := by
  simp only [UID.eq, Option.some.injEq, beq_iff_eq] at h
  simpa [UID.hash] using h

/-- C6 witness: two UIDs sharing the value 42 compare equal and hash
identically. -/
theorem uid_eq_implies_hash_eq_witness :
    (UID.mk u42 false).eq (.uid (UID.mk u42 true)) = some true ∧
    (UID.mk u42 false).hash = (UID.mk u42 true).hash :=
  ⟨rfl, uid_eq_implies_hash_eq (UID.mk u42 false) (UID.mk u42 true) rfl⟩

/-- C10: the hash is injective on the 128-bit values: equal hashes force
equal uuid values, since the hash is the full 128-bit integer. -/
theorem uid_hash_injective (a b : UID) (h : a.hash = b.hash) :
    a.value = b.value := by
  simp only [UID.hash] at h
  exact Uuid.eq_of_int_eq h

/-- C10 witness: two UIDs hashing to 42 carry the same value. -/
theorem uid_hash_injective_witness :
    (UID.mk u42 false).hash = (UID.mk u42 true).hash ∧
    (UID.mk u42 false).value = (UID.mk u42 true).value :=
  ⟨rfl, uid_hash_injective (UID.mk u42 false) (UID.mk u42 true) rfl⟩

end Syft
